import Mathlib

/-!
# Verification of the appointment scheduling core (beauty_manager)

Shallow embedding of the scheduling engine of the repository:
`database.py` (appointment store, availability, lifecycle),
`utils.py` (input validation) and the admin time-change handler of
`handlers.py`.

Modelling conventions:
* Calendar dates are `Nat` day numbers: SQLite stores ISO date strings whose
  lexicographic order and equality coincide with calendar order, and the
  Python code only ever compares dates for equality and order, so the
  ordered type `Nat` is a faithful carrier.
* Times of day are the `HH:MM` strings the code itself exchanges and stores;
  the SQL conflict checks are exact string comparisons.
* Statuses are the literal strings of the code
  (`"active"`, `"cancelled_by_client"`, `"deleted"`, `"archived"`).
* The SQLite tables become lists of records; `AUTOINCREMENT` ids become the
  `nextId` counter; SQL `UPDATE ... WHERE` becomes `List.map` guarded by the
  WHERE predicate, `SELECT ... fetchone()` becomes `List.find?`, and
  `cursor.rowcount` becomes `List.countP` of the WHERE predicate.
* `except sqlite3.Error` branches are modelled by an explicit `fault` flag on
  the fault-aware variants (`checkTimeConflictF`, `bookAppointmentF`,
  `rescheduleAppointmentF`): `fault = true` takes the exception branch of the
  corresponding `try`/`except`, `fault = false` the normal path.
* Python truthiness tests on optional ids (`if exclude_id:`,
  `if telegram_user_id:`) are modelled by `Option`; AUTOINCREMENT ids start
  at 1, so `0`/`None` coincide as the falsy case.
-/

/-- One row of the `appointments` table (`init_database`, database.py).
`created_at`/`updated_at` timestamps are omitted: no claimed operation reads
them. -/
structure Appointment where
  id : Nat
  client_name : String
  telegram_user_id : Option Nat
  phone : Option String
  date : Nat
  time : String
  service : String
  status : String
deriving Repr, DecidableEq

/-- One row of the `clients` table (`init_database`, database.py). -/
structure Client where
  telegram_user_id : Nat
  name : String
  phone : Option String
  first_visit : Nat
  last_visit : Nat
  total_visits : Nat
deriving Repr, DecidableEq

/-- The SQLite database: both tables plus the AUTOINCREMENT counter for
`appointments.id` (ids start at 1, as in SQLite). -/
structure Store where
  appointments : List Appointment
  clients : List Client
  nextId : Nat
deriving Repr, DecidableEq

/-- The empty, freshly initialised database. -/
def Store.empty : Store := { appointments := [], clients := [], nextId := 1 }

/-- WHERE clause of `check_time_conflict`: the row is `active` and occupies
exactly `(appointment_time, appointment_date)`, and (when an id is excluded)
is not the excluded row. -/
def conflictPred (new_time : String) (date : Nat) (exclude : Option Nat)
    (a : Appointment) : Bool :=
  a.time == new_time && a.date == date && a.status == "active" &&
    (match exclude with
     | some eid => a.id != eid
     | none => true)

/-- `check_time_conflict(new_time, appointment_date, exclude_id=None)`
(database.py 653-677), normal path: `SELECT client_name ... fetchone()`,
returning the colliding client's name or `None`. -/
def checkTimeConflict (s : Store) (new_time : String) (date : Nat)
    (exclude : Option Nat) : Option String :=
  (s.appointments.find? (conflictPred new_time date exclude)).map
    (fun a => a.client_name)

/-- `check_time_conflict` with its `except sqlite3.Error` branch explicit:
on a storage fault the function prints and returns `None`
(database.py 673-675). -/
def checkTimeConflictF (fault : Bool) (s : Store) (new_time : String)
    (date : Nat) (exclude : Option Nat) : Option String :=
  if fault then none else checkTimeConflict s new_time date exclude

/-- `register_or_update_client` (database.py 357-388): update name/phone and
`last_visit` of an existing client, or insert a new client row with
`total_visits` defaulting to 0. -/
def registerOrUpdateClient (today : Nat) (s : Store) (tg : Nat)
    (name : String) (phone : Option String) : Store :=
  if (s.clients.find? (fun c => c.telegram_user_id == tg)).isSome then
    { s with clients := s.clients.map (fun c =>
        if c.telegram_user_id == tg then
          { c with name := name, phone := phone, last_visit := today }
        else c) }
  else
    { s with clients := s.clients ++
        [{ telegram_user_id := tg, name := name, phone := phone,
           first_visit := today, last_visit := today, total_visits := 0 }] }

/-- The insert path of `book_appointment` (database.py 403-421), taken when the
conflict check returned `None`: INSERT the row as `active` with the next
AUTOINCREMENT id, upsert the client, bump `total_visits`, return the id. -/
def bookInsert (today : Nat) (s : Store) (tg : Nat) (client_name : String)
    (date : Nat) (time : String) (service : String) (phone : Option String) :
    Option Nat × Store :=
  let withRow : Store :=
    { s with
      appointments := s.appointments ++
        [{ id := s.nextId, client_name := client_name,
           telegram_user_id := some tg, phone := phone, date := date,
           time := time, service := service, status := "active" }],
      nextId := s.nextId + 1 }
  let withClient := registerOrUpdateClient today withRow tg client_name phone
  let bumped :=
    { withClient with clients := withClient.clients.map (fun c =>
        if c.telegram_user_id == tg then
          { c with total_visits := c.total_visits + 1 }
        else c) }
  (some s.nextId, bumped)

/-- `book_appointment` (database.py 391-428) with the fault flag of its
conflict-check read: check the slot, bail out with `None` on a conflict,
otherwise run the insert path. -/
def bookAppointmentF (fault : Bool) (today : Nat) (s : Store) (tg : Nat)
    (client_name : String) (date : Nat) (time : String) (service : String)
    (phone : Option String) : Option Nat × Store :=
  if (checkTimeConflictF fault s time date none).isSome then
    (none, s)
  else
    bookInsert today s tg client_name date time service phone

/-- `book_appointment` on the normal (fault-free) path. -/
def bookAppointment (today : Nat) (s : Store) (tg : Nat)
    (client_name : String) (date : Nat) (time : String) (service : String)
    (phone : Option String) : Option Nat × Store :=
  bookAppointmentF false today s tg client_name date time service phone

/-- `add_appointment` (database.py 500-531): same conflict-checked insert, but
`telegram_user_id` is optional and the client upsert happens only when it is
present; no `total_visits` bump. -/
def addAppointment (today : Nat) (s : Store) (client_name : String)
    (date : Nat) (time : String) (service : String) (tg : Option Nat)
    (phone : Option String) : Option Nat × Store :=
  if (checkTimeConflict s time date none).isSome then
    (none, s)
  else
    let withRow : Store :=
      { s with
        appointments := s.appointments ++
          [{ id := s.nextId, client_name := client_name,
             telegram_user_id := tg, phone := phone, date := date,
             time := time, service := service, status := "active" }],
        nextId := s.nextId + 1 }
    match tg with
    | some u => (some s.nextId,
        registerOrUpdateClient today withRow u client_name phone)
    | none => (some s.nextId, withRow)

/-- WHERE clause of the reschedule UPDATE (database.py 472-485): the client
form additionally requires ownership. -/
def reschedulePred (aid : Nat) (tg : Option Nat) (a : Appointment) : Bool :=
  a.id == aid && a.status == "active" &&
    (match tg with
     | some u => a.telegram_user_id == some u
     | none => true)

/-- The update path of `reschedule_appointment` (database.py 472-489), taken
when the conflict check returned `None`: UPDATE date/time of the matching
active row, report `rowcount > 0`. -/
def rescheduleUpdate (s : Store) (aid : Nat) (newDate : Nat)
    (newTime : String) (tg : Option Nat) : Bool × Store :=
  let success := decide (0 < s.appointments.countP (reschedulePred aid tg))
  (success,
    { s with appointments := s.appointments.map (fun a =>
        if reschedulePred aid tg a then
          { a with date := newDate, time := newTime }
        else a) })

/-- `reschedule_appointment` (database.py 460-495) with the fault flag of its
conflict-check read: check the target slot excluding the moved row, bail out
on a conflict, otherwise run the UPDATE. -/
def rescheduleAppointmentF (fault : Bool) (s : Store) (aid : Nat)
    (newDate : Nat) (newTime : String) (tg : Option Nat) : Bool × Store :=
  if (checkTimeConflictF fault s newTime newDate (some aid)).isSome then
    (false, s)
  else
    rescheduleUpdate s aid newDate newTime tg

/-- `reschedule_appointment` on the normal (fault-free) path. -/
def rescheduleAppointment (s : Store) (aid : Nat) (newDate : Nat)
    (newTime : String) (tg : Option Nat) : Bool × Store :=
  rescheduleAppointmentF false s aid newDate newTime tg

/-- `cancel_appointment_by_client` (database.py 431-457): SELECT the row by
`(id, telegram_user_id, status='active')`; if found, UPDATE its status to
`cancelled_by_client` (the UPDATE's WHERE is `id = ?` alone) and return true;
otherwise return false. -/
def cancelAppointmentByClient (s : Store) (aid : Nat) (tg : Nat) :
    Bool × Store :=
  if (s.appointments.find? (fun a =>
        a.id == aid && a.telegram_user_id == some tg &&
          a.status == "active")).isSome then
    (true,
      { s with appointments := s.appointments.map (fun a =>
          if a.id == aid then { a with status := "cancelled_by_client" }
          else a) })
  else
    (false, s)

/-- `delete_appointment` (database.py 565-584): UPDATE status to `deleted`
WHERE `id = ? AND status = 'active'`; report `rowcount > 0`. -/
def deleteAppointment (s : Store) (aid : Nat) : Bool × Store :=
  let success := decide (0 < s.appointments.countP (fun a =>
    a.id == aid && a.status == "active"))
  (success,
    { s with appointments := s.appointments.map (fun a =>
        if a.id == aid && a.status == "active" then
          { a with status := "deleted" }
        else a) })

/-- `update_appointment_time` (database.py 587-606): UPDATE the time WHERE
`id = ? AND status = 'active'`; report `rowcount > 0`. -/
def updateAppointmentTime (s : Store) (aid : Nat) (newTime : String) :
    Bool × Store :=
  let success := decide (0 < s.appointments.countP (fun a =>
    a.id == aid && a.status == "active"))
  (success,
    { s with appointments := s.appointments.map (fun a =>
        if a.id == aid && a.status == "active" then
          { a with time := newTime }
        else a) })

/-- `update_appointment_client` (database.py 609-628). -/
def updateAppointmentClient (s : Store) (aid : Nat) (newName : String) :
    Bool × Store :=
  let success := decide (0 < s.appointments.countP (fun a =>
    a.id == aid && a.status == "active"))
  (success,
    { s with appointments := s.appointments.map (fun a =>
        if a.id == aid && a.status == "active" then
          { a with client_name := newName }
        else a) })

/-- `update_appointment_service` (database.py 631-650). -/
def updateAppointmentService (s : Store) (aid : Nat) (newService : String) :
    Bool × Store :=
  let success := decide (0 < s.appointments.countP (fun a =>
    a.id == aid && a.status == "active"))
  (success,
    { s with appointments := s.appointments.map (fun a =>
        if a.id == aid && a.status == "active" then
          { a with service := newService }
        else a) })

/-- `get_appointment_by_id` (database.py 680-700): SELECT
`(client_name, date, time, service, COALESCE(telegram_user_id, 0))` of the
active row with the given id, or `None`. -/
def getAppointmentById (s : Store) (aid : Nat) :
    Option (String × Nat × String × String × Nat) :=
  (s.appointments.find? (fun a => a.id == aid && a.status == "active")).map
    (fun a => (a.client_name, a.date, a.time, a.service,
               a.telegram_user_id.getD 0))

/-- WHERE clause of the archive sweep (database.py 756-759). -/
def cleanupPred (cutoff : Nat) (a : Appointment) : Bool :=
  a.date < cutoff &&
    (a.status == "cancelled_by_client" || a.status == "deleted")

/-- `cleanup_old_appointments(days_old)` (database.py 748-771): flip
`cancelled_by_client`/`deleted` rows dated before `today - days_old` to
`archived`; return the affected row count. -/
def cleanupOldAppointments (today : Nat) (daysOld : Nat) (s : Store) :
    Nat × Store :=
  let cutoff := today - daysOld
  (s.appointments.countP (cleanupPred cutoff),
    { s with appointments := s.appointments.map (fun a =>
        if cleanupPred cutoff a then { a with status := "archived" }
        else a) })

/-! ## Clock / availability engine -/

/-- Modelled from the spec: `config.py` (not part of the provided sources)
defines `WORKING_HOURS = {start: "09:00", end: "18:00",
break_start: "13:00", break_end: "14:00"}`; the spec fixes business hours
09:00-18:00 with a 13:00-14:00 break. Expressed in minutes after midnight. -/
def workStartMin : Nat := 9 * 60

/-- Modelled from the spec: end of business hours, 18:00. -/
def workEndMin : Nat := 18 * 60

/-- Modelled from the spec: break start, 13:00. -/
def breakStartMin : Nat := 13 * 60

/-- Modelled from the spec: break end, 14:00. -/
def breakEndMin : Nat := 14 * 60

/-- Two-digit decimal rendering, as `strftime` pads with `0`. -/
def pad2 (n : Nat) : String :=
  if n < 10 then "0" ++ toString n else toString n

/-- `current_time.strftime('%H:%M')`: minutes after midnight to `HH:MM`. -/
def fmtTime (m : Nat) : String :=
  pad2 (m / 60) ++ ":" ++ pad2 (m % 60)

/-- The `while current_time < end_time` loop of `get_available_times`
(database.py 328-345), stepping 30 minutes per iteration: skip the break
window, skip busy times, and on today keep only times strictly after now.
`fuel` is structural-recursion fuel; any value above the iteration count is
sufficient, and all callers pass `workEndMin`. -/
def slotLoop (fuel : Nat) (busy : List String) (isToday : Bool)
    (nowMin : Nat) (cur : Nat) : List String :=
  match fuel with
  | 0 => []
  | fuel' + 1 =>
    if cur < workEndMin then
      let rest := slotLoop fuel' busy isToday nowMin (cur + 30)
      if breakStartMin ≤ cur ∧ cur < breakEndMin then rest
      else if fmtTime cur ∈ busy then rest
      else if isToday then
        (if nowMin < cur then fmtTime cur :: rest else rest)
      else fmtTime cur :: rest
    else []

/-- The busy-times query of `get_available_times` (database.py 301-312):
times of active rows on the target date, minus the excluded appointment. -/
def busyTimes (s : Store) (targetDate : Nat) (excludeId : Option Nat) :
    List String :=
  (s.appointments.filter (fun a =>
    a.date == targetDate && a.status == "active" &&
      (match excludeId with
       | some eid => a.id != eid
       | none => true))).map (fun a => a.time)

/-- `get_available_times(date_str, exclude_appointment_id=None)`
(database.py 288-354). The `DD.MM.YYYY` parse is done by the caller; the
function takes the parsed target date, today's date and the current
time-of-day in minutes. Returns `[]` for past dates, otherwise the generated
slots minus busy times. -/
def getAvailableTimes (today : Nat) (nowMin : Nat) (s : Store)
    (targetDate : Nat) (excludeId : Option Nat) : List String :=
  if targetDate < today then []
  else
    slotLoop workEndMin (busyTimes s targetDate excludeId)
      (targetDate == today) nowMin workStartMin

/-! ## Input validation and the admin time-change handler -/

/-- Python's `int(...)` restricted to what the time validator feeds it: a
non-empty all-digit field parses to its decimal value, anything else raises
`ValueError` (modelled as `none`; a negative literal fails the `0 ≤` lower
bound in Python and the parse here, with the same verdict). -/
def digitsToNat? (cs : List Char) : Option Nat :=
  if cs ≠ [] ∧ cs.all (fun c => c.isDigit) then
    some (cs.foldl (fun acc c => acc * 10 + (c.toNat - 48)) 0)
  else none

/-- `validate_time_format` (utils.py 43-53): split on `:`, require exactly two
integer fields with `0 ≤ hours ≤ 23` and `0 ≤ minutes ≤ 59`. The split is the
character-level rendering of `time_str.split(':')`. -/
def validateTimeFormat (time_str : String) : Bool :=
  match time_str.toList.splitOn ':' with
  | [h, m] =>
    match digitsToNat? h, digitsToNat? m with
    | some hours, some minutes => hours ≤ 23 && minutes ≤ 59
    | _, _ => false
  | _ => false

/-- `handle_admin_time_change` (handlers.py 623-666), its store effect:
reject input failing `validate_time_format`; look up the appointment; check
the time conflict on the appointment's own date excluding itself; on a
conflict answer with a message and leave the store alone; otherwise commit
via `update_appointment_time`. -/
def handleAdminTimeChange (s : Store) (aid : Nat) (newTime : String) :
    Store :=
  if !validateTimeFormat newTime then s
  else
    match getAppointmentById s aid with
    | none => s
    | some info =>
      let date := info.2.1
      if (checkTimeConflict s newTime date (some aid)).isSome then s
      else (updateAppointmentTime s aid newTime).2

/-! ## Operation alphabet and well-formedness -/

/-- The booking/rescheduling operations of claim C1. -/
inductive BookOp where
  | book (tg : Nat) (name : String) (date : Nat) (time : String)
      (service : String) (phone : Option String)
  | add (name : String) (date : Nat) (time : String) (service : String)
      (tg : Option Nat) (phone : Option String)
  | reschedule (aid : Nat) (newDate : Nat) (newTime : String)
      (tg : Option Nat)

/-- Store effect of one booking/rescheduling call. -/
def BookOp.apply (today : Nat) (op : BookOp) (s : Store) : Store :=
  match op with
  | .book tg name date time service phone =>
    (bookAppointment today s tg name date time service phone).2
  | .add name date time service tg phone =>
    (addAppointment today s name date time service tg phone).2
  | .reschedule aid newDate newTime tg =>
    (rescheduleAppointment s aid newDate newTime tg).2

/-- Sequential execution of a list of booking/rescheduling calls. -/
def applyBookOps (today : Nat) (ops : List BookOp) (s : Store) : Store :=
  match ops with
  | [] => s
  | op :: rest => applyBookOps today rest (op.apply today s)

/-- Number of active rows occupying slot `(date D, time T)`. -/
def slotPred (D : Nat) (T : String) (a : Appointment) : Bool :=
  a.status == "active" && a.date == D && a.time == T

def activeCount (D : Nat) (T : String) (l : List Appointment) : Nat :=
  l.countP (slotPred D T)

/-- The slot-uniqueness invariant: at most one active row per `(date, time)`. -/
def SlotInv (s : Store) : Prop :=
  ∀ D T, activeCount D T s.appointments ≤ 1

/-- Structural well-formedness the SQLite schema guarantees: `id` is
`PRIMARY KEY AUTOINCREMENT`, so ids are pairwise distinct and below the
next id to be assigned. -/
def WF (s : Store) : Prop :=
  s.appointments.Pairwise (fun a b => a.id ≠ b.id) ∧
    ∀ a ∈ s.appointments, a.id < s.nextId

/-! ## Helper lemmas -/

theorem id_unique_of_pairwise {l : List Appointment}
    (h : l.Pairwise (fun a b => a.id ≠ b.id)) :
    ∀ a ∈ l, ∀ b ∈ l, a.id = b.id → a = b := by
  induction l with
  | nil => simp
  | cons x xs ih =>
    rcases List.pairwise_cons.mp h with ⟨hx, hxs⟩
    intro a ha b hb hab
    rcases List.mem_cons.mp ha with rfl | ha' <;>
      rcases List.mem_cons.mp hb with rfl | hb'
    · rfl
    · exact absurd hab (hx b hb')
    · exact absurd hab.symm (hx a ha')
    · exact ih hxs a ha' b hb' hab

theorem countP_id_le_one {l : List Appointment} (aid : Nat)
    (h : l.Pairwise (fun a b => a.id ≠ b.id)) :
    l.countP (fun a => a.id == aid) ≤ 1 := by
  induction l with
  | nil => simp
  | cons x xs ih =>
    rcases List.pairwise_cons.mp h with ⟨hx, hxs⟩
    rw [List.countP_cons]
    by_cases hxa : x.id = aid
    · have hz : xs.countP (fun a => a.id == aid) = 0 := by
        rw [List.countP_eq_zero]
        intro b hb hbid
        exact hx b hb (hxa.trans (beq_iff_eq.mp hbid).symm)
      simp [hz, hxa]
    · have := ih hxs
      simp only [beq_iff_eq, hxa]
      simpa using this

theorem forall₂_map_self {α β : Type} {R : α → β → Prop} {f : α → β}
    {l : List α} (h : ∀ a ∈ l, R a (f a)) : List.Forall₂ R l (l.map f) := by
  induction l with
  | nil => exact List.Forall₂.nil
  | cons x xs ih =>
    exact List.Forall₂.cons (h x (by simp))
      (ih (fun a ha => h a (by simp [ha])))

theorem forall₂_refl_of {α : Type} {R : α → α → Prop} {l : List α}
    (h : ∀ a ∈ l, R a a) : List.Forall₂ R l l := by
  induction l with
  | nil => exact List.Forall₂.nil
  | cons x xs ih =>
    exact List.Forall₂.cons (h x (by simp))
      (ih (fun a ha => h a (by simp [ha])))

/-! ## C3: conflict rejection leaves the store unchanged -/

/-- C3. In every store state in which an active appointment already occupies
`(D, T)`, both booking entry points (`book_appointment` and
`add_appointment`) return `None` instead of an id and return the store
exactly as it was: no appointment row and no client row is touched. -/
theorem booking_conflict_rejected (today : Nat) (s : Store) (tg : Nat)
    (name : String) (D : Nat) (T : String) (service : String)
    (phone : Option String) (tg' : Option Nat)
    (hocc : ∃ a ∈ s.appointments,
      a.status = "active" ∧ a.date = D ∧ a.time = T) :
    bookAppointment today s tg name D T service phone = (none, s) ∧
    addAppointment today s name D T service tg' phone = (none, s) := by
  obtain ⟨a, ha, hst, hd, ht⟩ := hocc
  have hfind : (s.appointments.find? (conflictPred T D none)).isSome :=
    List.find?_isSome.mpr ⟨a, ha, by simp [conflictPred, hst, hd, ht]⟩
  have hc : (checkTimeConflict s T D none).isSome := by
    unfold checkTimeConflict
    obtain ⟨x, hx⟩ := Option.isSome_iff_exists.mp hfind
    rw [hx]
    rfl
  constructor
  · simp [bookAppointment, bookAppointmentF, checkTimeConflictF, hc]
  · simp [addAppointment, hc]

/-- Concrete instance of C3: one active appointment at `(20240610, "10:00")`;
rebooking the slot fails and leaves the store untouched. -/
def apptAnna : Appointment :=
  { id := 1, client_name := "Anna", telegram_user_id := some 1,
    phone := none, date := 20240610, time := "10:00",
    service := "Haircut", status := "active" }

def sOcc : Store :=
  { appointments := [apptAnna], clients := [], nextId := 2 }

theorem booking_conflict_rejected_witness :
    bookAppointment 0 sOcc 2 "Beth" 20240610 "10:00" "Color" none =
      (none, sOcc) ∧
    addAppointment 0 sOcc "Beth" 20240610 "10:00" "Color" none none =
      (none, sOcc) :=
  booking_conflict_rejected 0 sOcc 2 "Beth" 20240610 "10:00" "Color"
    none none ⟨apptAnna, by simp [sOcc], rfl, rfl, rfl⟩

/-! ## C8: the archive sweep is idempotent -/

/-- C8. Running `cleanup_old_appointments` twice in a row with the same
clock and age threshold and no intervening writes archives the eligible set
exactly once: the second run changes no row and reports 0 affected rows. -/
theorem archive_idempotent (today daysOld : Nat) (s : Store) :
    cleanupOldAppointments today daysOld
      (cleanupOldAppointments today daysOld s).2 =
    (0, (cleanupOldAppointments today daysOld s).2) := by
  unfold cleanupOldAppointments
  set c := today - daysOld with hc
  set f : Appointment → Appointment := fun a =>
    if cleanupPred c a then { a with status := "archived" } else a with hf
  have hpt : ∀ a, cleanupPred c (f a) = false := by
    intro a
    by_cases h : cleanupPred c a
    · simp only [hf, if_pos h]
      simp [cleanupPred]
    · simp only [hf, if_neg h]
      exact Bool.not_eq_true _ |>.mp h
  have hcount : (s.appointments.map f).countP (cleanupPred c) = 0 := by
    rw [List.countP_map, List.countP_eq_zero]
    intro a _
    simp [Function.comp, hpt a]
  have hmap : (s.appointments.map f).map f = s.appointments.map f := by
    rw [List.map_map]
    exact List.map_congr_left (fun a _ => by
      by_cases h : cleanupPred c a
      · simp only [Function.comp_apply, hf, if_pos h]
        rw [if_neg]
        simp [cleanupPred]
      · simp only [Function.comp_apply, hf, if_neg h, if_neg h])
  simp only [Prod.mk.injEq]
  exact ⟨hcount, by rw [hmap]⟩

/-! ## C10: a storage fault during the conflict check reads as a free slot -/

/-- C10. `check_time_conflict` returns `None` both on an unoccupied slot and
on a storage fault (`except sqlite3.Error: return None`), so
`book_appointment` and `reschedule_appointment` under a faulting conflict
check proceed straight to their insert/update path — exactly the behaviour
they exhibit on a genuinely free slot. -/
theorem storage_fault_indistinguishable_from_free :
    (∀ s t d e, checkTimeConflictF true s t d e = none) ∧
    (∀ today s tg name d t sv ph,
      bookAppointmentF true today s tg name d t sv ph =
        bookInsert today s tg name d t sv ph ∧
      (checkTimeConflict s t d none = none →
        bookAppointmentF false today s tg name d t sv ph =
          bookAppointmentF true today s tg name d t sv ph)) ∧
    (∀ s aid d t tg,
      rescheduleAppointmentF true s aid d t tg =
        rescheduleUpdate s aid d t tg ∧
      (checkTimeConflict s t d (some aid) = none →
        rescheduleAppointmentF false s aid d t tg =
          rescheduleAppointmentF true s aid d t tg)) := by
  refine ⟨fun s t d e => rfl, fun today s tg name d t sv ph => ⟨rfl, ?_⟩,
    fun s aid d t tg => ⟨rfl, ?_⟩⟩
  · intro h
    simp [bookAppointmentF, checkTimeConflictF, h]
  · intro h
    simp [rescheduleAppointmentF, checkTimeConflictF, h]

theorem storage_fault_indistinguishable_from_free_witness :
    bookAppointmentF false 5 Store.empty 1 "Anna" 20240610 "10:00"
        "Haircut" none =
      bookAppointmentF true 5 Store.empty 1 "Anna" 20240610 "10:00"
        "Haircut" none :=
  (storage_fault_indistinguishable_from_free.2.1 5 Store.empty 1 "Anna"
    20240610 "10:00" "Haircut" none).2 rfl

/-! ## C6: ownership enforcement for client cancellation -/

/-- C6. `cancel_appointment_by_client(id, ref)` fails and returns the store
verbatim (so the target row keeps status `active` and every other field)
whenever the row with that id is not owned by `ref`; and it reports success
only when an `active` row with that id owned by `ref` exists. -/
theorem cancel_ownership_enforced (s : Store) (aid ref : Nat) (hwf : WF s) :
    (∀ a ∈ s.appointments, a.id = aid → a.telegram_user_id ≠ some ref →
      cancelAppointmentByClient s aid ref = (false, s)) ∧
    ((cancelAppointmentByClient s aid ref).1 = true →
      ∃ a ∈ s.appointments, a.id = aid ∧ a.telegram_user_id = some ref ∧
        a.status = "active") := by
  obtain ⟨hpair, _⟩ := hwf
  constructor
  · intro a ha haid htg
    have hnone : s.appointments.find? (fun b =>
        b.id == aid && b.telegram_user_id == some ref &&
          b.status == "active") = none := by
      rw [List.find?_eq_none]
      intro b hb hbp
      simp only [Bool.and_eq_true, beq_iff_eq] at hbp
      obtain ⟨⟨hbid, hbtg⟩, _⟩ := hbp
      have hba : b = a :=
        id_unique_of_pairwise hpair b hb a ha (hbid.trans haid.symm)
      exact htg (hba ▸ hbtg)
    simp [cancelAppointmentByClient, hnone]
  · intro h
    by_cases hfind : (s.appointments.find? (fun b =>
        b.id == aid && b.telegram_user_id == some ref &&
          b.status == "active")).isSome
    · obtain ⟨b, hb, hbp⟩ := List.find?_isSome.mp hfind
      simp only [Bool.and_eq_true, beq_iff_eq] at hbp
      exact ⟨b, hb, hbp.1.1, hbp.1.2, hbp.2⟩
    · exact absurd h (by simp [cancelAppointmentByClient, hfind])

theorem cancel_ownership_enforced_witness :
    cancelAppointmentByClient sOcc 1 2 = (false, sOcc) :=
  (cancel_ownership_enforced sOcc 1 2
      ⟨by simp [sOcc], by simp [sOcc, apptAnna]⟩).1
    apptAnna (by simp [sOcc]) rfl (by simp [apptAnna])

/-! ## C4 / C5: availability -/

/-- On a strictly future target date the availability computation ignores
`nowMin` and runs the slot loop with `isToday = false`. -/
theorem getAvailableTimes_future {today d : Nat} (nowMin : Nat) (s : Store)
    (e : Option Nat) (h : today < d) :
    getAvailableTimes today nowMin s d e =
      slotLoop workEndMin (busyTimes s d e) false nowMin workStartMin := by
  unfold getAvailableTimes
  rw [if_neg (by omega)]
  have hd : (d == today) = false := beq_eq_false_iff_ne.mpr (by omega)
  rw [hd]

/-- Counterexample to C4 as stated: with no appointments on the future date
2024-06-10, `get_available_times` returns the enumerated ascending list
09:00..12:30, 14:00..17:30, but that list has 16 slots, not the claimed 18
(18 is the slot count before removing the two break slots). -/
theorem available_slots_count_cex :
    getAvailableTimes 20240601 600 Store.empty 20240610 none =
      ["09:00", "09:30", "10:00", "10:30", "11:00", "11:30", "12:00",
       "12:30", "14:00", "14:30", "15:00", "15:30", "16:00", "16:30",
       "17:00", "17:30"] ∧
    (getAvailableTimes 20240601 600 Store.empty 20240610 none).length ≠ 18 :=
  ⟨rfl, by decide⟩

/-- C4 amended: with business hours 09:00-18:00, break 13:00-14:00 and
30-minute granularity, `get_available_times` on a future date with no
existing appointments returns exactly the 16 slots 09:00, 09:30, ..., 12:30,
14:00, 14:30, ..., 17:30 in ascending time order, excluding the break slots
13:00 and 13:30. -/
theorem available_slots_business_hours (today nowMin : Nat)
    (h : today < 20240610) :
    getAvailableTimes today nowMin Store.empty 20240610 none =
      ["09:00", "09:30", "10:00", "10:30", "11:00", "11:30", "12:00",
       "12:30", "14:00", "14:30", "15:00", "15:30", "16:00", "16:30",
       "17:00", "17:30"] := by
  rw [getAvailableTimes_future nowMin Store.empty none h]
  rfl

theorem available_slots_business_hours_witness :
    getAvailableTimes 20240601 600 Store.empty 20240610 none =
      ["09:00", "09:30", "10:00", "10:30", "11:00", "11:30", "12:00",
       "12:30", "14:00", "14:30", "15:00", "15:30", "16:00", "16:30",
       "17:00", "17:30"] :=
  available_slots_business_hours 20240601 600 (by decide)

/-- C5. Booking then rescheduling round trip on the empty store: booking
Anna at (2024-06-10, 10:00) yields id 1, rescheduling id 1 to 11:00 on the
same date reports success, `get_appointment_by_id` then shows time 11:00,
and the availability list for the date contains 10:00 again but not
11:00. -/
theorem book_reschedule_round_trip (today nowMin : Nat)
    (h : today < 20240610) :
    (bookAppointment today Store.empty 1 "Anna" 20240610 "10:00" "Haircut"
      none).1 = some 1 ∧
    (rescheduleAppointment (bookAppointment today Store.empty 1 "Anna"
      20240610 "10:00" "Haircut" none).2 1 20240610 "11:00" none).1 =
      true ∧
    getAppointmentById (rescheduleAppointment (bookAppointment today
      Store.empty 1 "Anna" 20240610 "10:00" "Haircut" none).2 1 20240610
      "11:00" none).2 1 = some ("Anna", 20240610, "11:00", "Haircut", 1) ∧
    "10:00" ∈ getAvailableTimes today nowMin (rescheduleAppointment
      (bookAppointment today Store.empty 1 "Anna" 20240610 "10:00"
      "Haircut" none).2 1 20240610 "11:00" none).2 20240610 none ∧
    "11:00" ∉ getAvailableTimes today nowMin (rescheduleAppointment
      (bookAppointment today Store.empty 1 "Anna" 20240610 "10:00"
      "Haircut" none).2 1 20240610 "11:00" none).2 20240610 none := by
  have he : getAvailableTimes today nowMin (rescheduleAppointment
      (bookAppointment today Store.empty 1 "Anna" 20240610 "10:00"
      "Haircut" none).2 1 20240610 "11:00" none).2 20240610 none =
      ["09:00", "09:30", "10:00", "10:30", "11:30", "12:00", "12:30",
       "14:00", "14:30", "15:00", "15:30", "16:00", "16:30", "17:00",
       "17:30"] := by
    rw [getAvailableTimes_future nowMin _ none h]
    rfl
  refine ⟨rfl, rfl, rfl, ?_, ?_⟩
  · rw [he]
    decide
  · rw [he]
    decide

theorem book_reschedule_round_trip_witness :
    (bookAppointment 20240601 Store.empty 1 "Anna" 20240610 "10:00"
      "Haircut" none).1 = some 1 ∧
    (rescheduleAppointment (bookAppointment 20240601 Store.empty 1 "Anna"
      20240610 "10:00" "Haircut" none).2 1 20240610 "11:00" none).1 =
      true ∧
    getAppointmentById (rescheduleAppointment (bookAppointment 20240601
      Store.empty 1 "Anna" 20240610 "10:00" "Haircut" none).2 1 20240610
      "11:00" none).2 1 = some ("Anna", 20240610, "11:00", "Haircut", 1) ∧
    "10:00" ∈ getAvailableTimes 20240601 600 (rescheduleAppointment
      (bookAppointment 20240601 Store.empty 1 "Anna" 20240610 "10:00"
      "Haircut" none).2 1 20240610 "11:00" none).2 20240610 none ∧
    "11:00" ∉ getAvailableTimes 20240601 600 (rescheduleAppointment
      (bookAppointment 20240601 Store.empty 1 "Anna" 20240610 "10:00"
      "Haircut" none).2 1 20240610 "11:00" none).2 20240610 none :=
  book_reschedule_round_trip 20240601 600 (by decide)

/-! ## C9: stored times are not quantized to the slot granularity -/

/-- Counterexample to C9: `validate_time_format` accepts `"10:17"` (any
minutes 0-59 pass), and the admin time-change path
(`handle_admin_time_change` -> `update_appointment_time`) stores it
verbatim, so an appointment ends up stored at the non-slot time 10:17
(17 is not a multiple of the 30-minute granularity). -/
theorem stored_time_not_quantized_cex :
    validateTimeFormat "10:17" = true ∧
    (handleAdminTimeChange sOcc 1 "10:17").appointments.map
      (fun a => a.time) = ["10:17"] ∧
    17 % 30 ≠ 0 :=
  ⟨rfl, rfl, by decide⟩

/-- C9 amended: `validate_time_format` bounds hours to 0-23 and minutes to
0-59 but does not quantize to the 30-minute granularity, and the admin
time-change path stores any validated time string verbatim: whenever the
validation passes, the appointment exists and the slot-exact conflict check
is clear, the target row's stored time is exactly the entered string —
including non-slot times such as "10:17". -/
theorem admin_time_change_stores_verbatim (s : Store) (aid : Nat)
    (t : String) (info : String × Nat × String × String × Nat)
    (hv : validateTimeFormat t = true)
    (hfind : getAppointmentById s aid = some info)
    (hnoc : checkTimeConflict s t info.2.1 (some aid) = none) :
    ∃ a ∈ (handleAdminTimeChange s aid t).appointments,
      a.id = aid ∧ a.time = t := by
  obtain ⟨b, hb, hinfo⟩ := Option.map_eq_some'.mp hfind
  have hmem := List.mem_of_find?_eq_some hb
  have hpred := List.find?_some hb
  simp only [Bool.and_eq_true, beq_iff_eq] at hpred
  have happts : (handleAdminTimeChange s aid t).appointments =
      s.appointments.map (fun a =>
        if a.id == aid && a.status == "active" then { a with time := t }
        else a) := by
    unfold handleAdminTimeChange
    rw [hv]
    simp only [Bool.not_true, Bool.false_eq_true, if_false, hfind]
    rw [hnoc]
    rfl
  rw [happts]
  refine ⟨{ b with time := t }, ?_, ?_, rfl⟩
  · have : (fun a : Appointment =>
        if a.id == aid && a.status == "active" then { a with time := t }
        else a) b = { b with time := t } := by
      simp [hpred.1, hpred.2]
    exact this ▸ List.mem_map_of_mem _ hmem
  · exact hpred.1

theorem admin_time_change_stores_verbatim_witness :
    ∃ a ∈ (handleAdminTimeChange sOcc 1 "10:17").appointments,
      a.id = 1 ∧ a.time = "10:17" :=
  admin_time_change_stores_verbatim sOcc 1 "10:17"
    ("Anna", 20240610, "10:00", "Haircut", 1) rfl rfl rfl

/-! ## C2: the check-then-insert race lets two bookings both succeed -/

/-- C2. `book_appointment`'s conflict check and INSERT are not atomic:
`check_time_conflict` runs on its own SQLite connection (its own read
transaction) and the INSERT on another, and `init_database` creates no
uniqueness constraint on `(appointment_date, appointment_time, status)`.
Under the interleaving check-1, check-2, insert-1, insert-2 — legal because
both reads complete before either write commits — both calls observe the
slot as free (first conjunct: the conflict check on the shared initial
store returns `None`), so both proceed to the insert path and both return
ids, leaving TWO active rows on the same `(date, time)` slot, contradicting
the claimed "exactly one succeeds and the final active count is 1". -/
theorem concurrent_double_book_both_succeed :
    checkTimeConflict Store.empty "10:00" 20240610 none = none ∧
    (bookInsert 5 Store.empty 1 "Anna" 20240610 "10:00" "Haircut" none).1 =
      some 1 ∧
    (bookInsert 5 (bookInsert 5 Store.empty 1 "Anna" 20240610 "10:00"
      "Haircut" none).2 2 "Beth" 20240610 "10:00" "Color" none).1 =
      some 2 ∧
    activeCount 20240610 "10:00"
      (bookInsert 5 (bookInsert 5 Store.empty 1 "Anna" 20240610 "10:00"
        "Haircut" none).2 2 "Beth" 20240610 "10:00" "Color"
        none).2.appointments = 2 :=
  ⟨rfl, rfl, rfl, rfl⟩

/-! ## C1: the slot-uniqueness invariant is preserved by book/reschedule -/

theorem registerOrUpdateClient_appointments (today : Nat) (s : Store)
    (tg : Nat) (name : String) (phone : Option String) :
    (registerOrUpdateClient today s tg name phone).appointments =
      s.appointments := by
  unfold registerOrUpdateClient
  split <;> rfl

theorem registerOrUpdateClient_nextId (today : Nat) (s : Store)
    (tg : Nat) (name : String) (phone : Option String) :
    (registerOrUpdateClient today s tg name phone).nextId = s.nextId := by
  unfold registerOrUpdateClient
  split <;> rfl

theorem bookInsert_appointments (today : Nat) (s : Store) (tg : Nat)
    (name : String) (d : Nat) (t : String) (sv : String)
    (ph : Option String) :
    (bookInsert today s tg name d t sv ph).2.appointments =
      s.appointments ++
        [{ id := s.nextId, client_name := name, telegram_user_id := some tg,
           phone := ph, date := d, time := t, service := sv,
           status := "active" }] := by
  unfold bookInsert
  simp [registerOrUpdateClient_appointments]

theorem bookInsert_nextId (today : Nat) (s : Store) (tg : Nat)
    (name : String) (d : Nat) (t : String) (sv : String)
    (ph : Option String) :
    (bookInsert today s tg name d t sv ph).2.nextId = s.nextId + 1 := by
  unfold bookInsert
  simp [registerOrUpdateClient_nextId]

theorem addAppointment_appointments_free (today : Nat) (s : Store)
    (name : String) (d : Nat) (t : String) (sv : String) (tg : Option Nat)
    (ph : Option String)
    (hc : (checkTimeConflict s t d none).isSome = false) :
    (addAppointment today s name d t sv tg ph).2.appointments =
      s.appointments ++
        [{ id := s.nextId, client_name := name, telegram_user_id := tg,
           phone := ph, date := d, time := t, service := sv,
           status := "active" }] := by
  unfold addAppointment
  rw [hc]
  cases tg <;> simp [registerOrUpdateClient_appointments]

theorem addAppointment_nextId_free (today : Nat) (s : Store)
    (name : String) (d : Nat) (t : String) (sv : String) (tg : Option Nat)
    (ph : Option String)
    (hc : (checkTimeConflict s t d none).isSome = false) :
    (addAppointment today s name d t sv tg ph).2.nextId = s.nextId + 1 := by
  unfold addAppointment
  rw [hc]
  cases tg <;> simp [registerOrUpdateClient_nextId]

theorem checkTimeConflict_eq_none {s : Store} {t : String} {d : Nat}
    {e : Option Nat} :
    checkTimeConflict s t d e = none ↔
      ∀ a ∈ s.appointments, conflictPred t d e a = false := by
  unfold checkTimeConflict
  rw [Option.map_eq_none', List.find?_eq_none]
  simp [Bool.not_eq_true]

theorem slotInv_insert {s : Store} {d : Nat} {t : String}
    (row : Appointment) (hinv : SlotInv s)
    (hfree : checkTimeConflict s t d none = none)
    (hrd : row.date = d) (hrt : row.time = t) :
    ∀ D T, activeCount D T (s.appointments ++ [row]) ≤ 1 := by
  intro D T
  rw [activeCount, List.countP_append]
  by_cases hDT : D = d ∧ T = t
  · obtain ⟨rfl, rfl⟩ := hDT
    have hz : s.appointments.countP (slotPred D T) = 0 := by
      rw [List.countP_eq_zero]
      intro a ha hpa
      simp only [slotPred, Bool.and_eq_true, beq_iff_eq] at hpa
      have hcf := checkTimeConflict_eq_none.mp hfree a ha
      simp [conflictPred, hpa.1.1, hpa.1.2, hpa.2] at hcf
    have hone : [row].countP (slotPred D T) ≤ 1 := by
      rw [List.countP_cons]
      simp [List.countP_nil]
      split <;> omega
    omega
  · have hrow : slotPred D T row = false := by
      simp only [slotPred, hrd, hrt]
      rcases not_and_or.mp hDT with hD | hT
      · have : (d == D) = false := beq_eq_false_iff_ne.mpr (Ne.symm hD)
        simp [this]
      · have : (t == T) = false := beq_eq_false_iff_ne.mpr (Ne.symm hT)
        simp [this]
    have hzrow : [row].countP (slotPred D T) = 0 := by
      rw [List.countP_cons, hrow]
      simp [List.countP_nil]
    have := hinv D T
    rw [activeCount] at this
    omega

theorem slotInv_book (today : Nat) (s : Store) (tg : Nat) (name : String)
    (d : Nat) (t : String) (sv : String) (ph : Option String)
    (hinv : SlotInv s) :
    SlotInv (bookAppointment today s tg name d t sv ph).2 := by
  unfold bookAppointment bookAppointmentF checkTimeConflictF
  by_cases hc : (checkTimeConflict s t d none).isSome
  · simpa [hc] using hinv
  · rw [Bool.not_eq_true] at hc
    simp only [if_false, hc, Bool.false_eq_true]
    intro D T
    rw [bookInsert_appointments]
    exact slotInv_insert _ hinv (Option.not_isSome_iff_eq_none.mp (by
      rw [hc]; exact Bool.false_ne_true)) rfl rfl D T

theorem slotInv_add (today : Nat) (s : Store) (name : String)
    (d : Nat) (t : String) (sv : String) (tg : Option Nat)
    (ph : Option String) (hinv : SlotInv s) :
    SlotInv (addAppointment today s name d t sv tg ph).2 := by
  by_cases hc : (checkTimeConflict s t d none).isSome
  · unfold addAppointment
    simpa [hc] using hinv
  · rw [Bool.not_eq_true] at hc
    intro D T
    rw [addAppointment_appointments_free today s name d t sv tg ph hc]
    exact slotInv_insert _ hinv (Option.not_isSome_iff_eq_none.mp (by
      rw [hc]; exact Bool.false_ne_true)) rfl rfl D T

theorem slotInv_reschedule (s : Store) (aid : Nat) (d : Nat) (t : String)
    (tg : Option Nat) (hwf : WF s) (hinv : SlotInv s) :
    SlotInv (rescheduleAppointment s aid d t tg).2 := by
  unfold rescheduleAppointment rescheduleAppointmentF checkTimeConflictF
  by_cases hc : (checkTimeConflict s t d (some aid)).isSome
  · simpa [hc] using hinv
  · rw [Bool.not_eq_true] at hc
    have hfree : checkTimeConflict s t d (some aid) = none :=
      Option.not_isSome_iff_eq_none.mp (by rw [hc]; exact Bool.false_ne_true)
    simp only [if_false, hc, Bool.false_eq_true]
    intro D T
    unfold rescheduleUpdate
    rw [activeCount]
    simp only [List.countP_map]
    by_cases hDT : D = d ∧ T = t
    · obtain ⟨rfl, rfl⟩ := hDT
      refine le_trans (List.countP_mono_left ?_) (countP_id_le_one aid hwf.1)
      intro a ha hpf
      simp only [Function.comp_apply] at hpf
      by_cases hg : reschedulePred aid tg a
      · simp only [reschedulePred, Bool.and_eq_true, beq_iff_eq] at hg
        exact beq_iff_eq.mpr hg.1.1
      · rw [if_neg hg] at hpf
        simp only [slotPred, Bool.and_eq_true, beq_iff_eq] at hpf
        have hcf := checkTimeConflict_eq_none.mp hfree a ha
        simp only [conflictPred, hpf.1.1, hpf.1.2, hpf.2,
          Bool.and_eq_true, beq_iff_eq] at hcf
        simp only [beq_iff_eq]
        by_contra hne
        simp [bne_eq_false_iff_eq, hne] at hcf
    · refine le_trans (List.countP_mono_left ?_) (hinv D T)
      intro a ha hpf
      simp only [Function.comp_apply] at hpf
      by_cases hg : reschedulePred aid tg a
      · exfalso
        rw [if_pos hg] at hpf
        simp only [slotPred, Bool.and_eq_true, beq_iff_eq] at hpf
        exact hDT ⟨hpf.1.2.symm ▸ rfl, hpf.2.symm ▸ rfl⟩
      · rw [if_neg hg] at hpf
        exact hpf

theorem wf_append_fresh {l : List Appointment} {n : Nat} (row : Appointment)
    (hp : l.Pairwise (fun a b => a.id ≠ b.id)) (hb : ∀ a ∈ l, a.id < n)
    (hrow : row.id = n) :
    (l ++ [row]).Pairwise (fun a b => a.id ≠ b.id) ∧
      ∀ a ∈ l ++ [row], a.id < n + 1 := by
  constructor
  · rw [List.pairwise_append]
    refine ⟨hp, List.pairwise_singleton _ _, ?_⟩
    intro a ha b hb'
    rw [List.mem_singleton] at hb'
    subst hb'
    rw [hrow]
    exact Nat.ne_of_lt (hb a ha)
  · intro a ha
    rcases List.mem_append.mp ha with h | h
    · exact Nat.lt_succ_of_lt (hb a h)
    · rw [List.mem_singleton] at h
      subst h
      omega

theorem wf_map_id_preserving {l : List Appointment} {n : Nat}
    (f : Appointment → Appointment) (hid : ∀ a, (f a).id = a.id)
    (hp : l.Pairwise (fun a b => a.id ≠ b.id)) (hb : ∀ a ∈ l, a.id < n) :
    (l.map f).Pairwise (fun a b => a.id ≠ b.id) ∧
      ∀ a ∈ l.map f, a.id < n := by
  constructor
  · rw [List.pairwise_map]
    exact hp.imp (by
      intro a b h
      rw [hid, hid]
      exact h)
  · intro a ha
    obtain ⟨b, hbmem, rfl⟩ := List.mem_map.mp ha
    rw [hid]
    exact hb b hbmem

theorem wf_bookOp (today : Nat) (op : BookOp) (s : Store) (hwf : WF s) :
    WF (op.apply today s) := by
  obtain ⟨hp, hb⟩ := hwf
  cases op with
  | book tg name d t sv ph =>
    unfold BookOp.apply bookAppointment bookAppointmentF checkTimeConflictF
    by_cases hc : (checkTimeConflict s t d none).isSome
    · simpa [hc] using ⟨hp, hb⟩
    · rw [Bool.not_eq_true] at hc
      simp only [if_false, hc, Bool.false_eq_true]
      constructor
      · rw [bookInsert_appointments]
        exact (wf_append_fresh _ hp hb rfl).1
      · rw [bookInsert_appointments, bookInsert_nextId]
        exact (wf_append_fresh _ hp hb rfl).2
  | add name d t sv tg ph =>
    by_cases hc : (checkTimeConflict s t d none).isSome
    · unfold BookOp.apply addAppointment
      simpa [hc] using ⟨hp, hb⟩
    · rw [Bool.not_eq_true] at hc
      constructor
      · rw [BookOp.apply, addAppointment_appointments_free _ _ _ _ _ _ _ _ hc]
        exact (wf_append_fresh _ hp hb rfl).1
      · rw [BookOp.apply, addAppointment_appointments_free _ _ _ _ _ _ _ _ hc,
          addAppointment_nextId_free _ _ _ _ _ _ _ _ hc]
        exact (wf_append_fresh _ hp hb rfl).2
  | reschedule aid d t tg =>
    unfold BookOp.apply rescheduleAppointment rescheduleAppointmentF
      checkTimeConflictF
    by_cases hc : (checkTimeConflict s t d (some aid)).isSome
    · simpa [hc] using ⟨hp, hb⟩
    · rw [Bool.not_eq_true] at hc
      simp only [if_false, hc, Bool.false_eq_true]
      unfold rescheduleUpdate
      constructor
      · exact (wf_map_id_preserving _ (fun a => by
          by_cases hg : reschedulePred aid tg a <;> simp [hg]) hp hb).1
      · exact (wf_map_id_preserving _ (fun a => by
          by_cases hg : reschedulePred aid tg a <;> simp [hg]) hp hb).2

theorem slotInv_bookOp (today : Nat) (op : BookOp) (s : Store)
    (hwf : WF s) (hinv : SlotInv s) : SlotInv (op.apply today s) := by
  cases op with
  | book tg name d t sv ph => exact slotInv_book today s tg name d t sv ph hinv
  | add name d t sv tg ph => exact slotInv_add today s name d t sv tg ph hinv
  | reschedule aid d t tg => exact slotInv_reschedule s aid d t tg hwf hinv

/-- C1. Starting from any well-formed store (distinct primary-key ids, as the
schema guarantees) in which at most one active appointment holds any given
`(date, time)`, any sequence of `book_appointment`/`add_appointment`/
`reschedule_appointment` calls executed sequentially preserves that
invariant: afterwards at most one `active` appointment exists per
`(date, time)`. -/
theorem slot_uniqueness_invariant (today : Nat) (ops : List BookOp)
    (s : Store) (hwf : WF s) (hinv : SlotInv s) :
    SlotInv (applyBookOps today ops s) := by
  induction ops generalizing s with
  | nil => exact hinv
  | cons op rest ih =>
    exact ih (op.apply today s) (wf_bookOp today op s hwf)
      (slotInv_bookOp today op s hwf hinv)

theorem slot_uniqueness_invariant_witness :
    SlotInv (applyBookOps 20240601
      [BookOp.book 1 "Anna" 20240610 "10:00" "Haircut" none,
       BookOp.book 2 "Beth" 20240610 "10:00" "Color" none,
       BookOp.reschedule 1 20240610 "11:00" none] Store.empty) :=
  slot_uniqueness_invariant 20240601 _ Store.empty
    ⟨List.Pairwise.nil, by simp [Store.empty]⟩
    (fun D T => by simp [Store.empty, activeCount])

/-! ## C7: only legal status transitions ever happen -/

/-- The full alphabet of store-writing operations of the embedding. -/
inductive WriteOp where
  | book (tg : Nat) (name : String) (date : Nat) (time : String)
      (service : String) (phone : Option String)
  | add (name : String) (date : Nat) (time : String) (service : String)
      (tg : Option Nat) (phone : Option String)
  | reschedule (aid : Nat) (newDate : Nat) (newTime : String)
      (tg : Option Nat)
  | cancel (aid : Nat) (tg : Nat)
  | delete (aid : Nat)
  | updTime (aid : Nat) (t : String)
  | updClient (aid : Nat) (n : String)
  | updService (aid : Nat) (v : String)
  | cleanup (daysOld : Nat)

/-- Store effect of one write operation. -/
def WriteOp.apply (today : Nat) (op : WriteOp) (s : Store) : Store :=
  match op with
  | .book tg name d t sv ph => (bookAppointment today s tg name d t sv ph).2
  | .add name d t sv tg ph => (addAppointment today s name d t sv tg ph).2
  | .reschedule aid d t tg => (rescheduleAppointment s aid d t tg).2
  | .cancel aid tg => (cancelAppointmentByClient s aid tg).2
  | .delete aid => (deleteAppointment s aid).2
  | .updTime aid t => (updateAppointmentTime s aid t).2
  | .updClient aid n => (updateAppointmentClient s aid n).2
  | .updService aid v => (updateAppointmentService s aid v).2
  | .cleanup daysOld => (cleanupOldAppointments today daysOld s).2

/-- Whether the operation is the archive sweep. -/
def WriteOp.isCleanup : WriteOp → Bool
  | .cleanup _ => true
  | _ => false

/-- The legal status transitions of the lifecycle:
`active -> cancelled_by_client`, `active -> deleted`, and
`cancelled_by_client/deleted -> archived`. -/
def legalTransition (old new : String) : Prop :=
  (old = "active" ∧ new = "cancelled_by_client") ∨
  (old = "active" ∧ new = "deleted") ∨
  ((old = "cancelled_by_client" ∨ old = "deleted") ∧ new = "archived")

theorem take_len_map {α β : Type} (l : List α) (f : α → β) :
    (l.map f).take l.length = l.map f := by
  conv_lhs => rw [← List.length_map l f]
  exact List.take_length _

theorem map_if_eq_self {α : Type} {g : α → Bool} {f : α → α} {l : List α}
    (h : ∀ a ∈ l, g a = false) :
    l.map (fun a => if g a then f a else a) = l := by
  induction l with
  | nil => rfl
  | cons x xs ih =>
    rw [List.map_cons, ih (fun a ha => h a (List.mem_cons_of_mem x ha))]
    simp [h x (List.mem_cons_self x xs)]

/-- How one write operation may evolve a single pre-existing row: the id is
kept, the status either stays or makes a legal lifecycle transition,
archived rows are never touched, and the archive sweep never touches an
active row. -/
def rowEvolution (op : WriteOp) (a a' : Appointment) : Prop :=
  a'.id = a.id ∧
  (a'.status = a.status ∨ legalTransition a.status a'.status) ∧
  (a.status = "archived" → a' = a) ∧
  (op.isCleanup = true → a.status = "active" → a' = a)

theorem rowEvolution_refl (op : WriteOp) (a : Appointment) :
    rowEvolution op a a :=
  ⟨rfl, Or.inl rfl, fun _ => rfl, fun _ _ => rfl⟩

theorem forall₂_take_refl (op : WriteOp) (l : List Appointment) :
    List.Forall₂ (rowEvolution op) l (l.take l.length) := by
  rw [List.take_length]
  exact forall₂_refl_of (fun a _ => rowEvolution_refl op a)

/-- C7. Every write operation of the store evolves every pre-existing row
only along the legal transitions `active -> cancelled_by_client`,
`active -> deleted`, `cancelled_by_client/deleted -> archived`; archived
rows are immutable, the archive sweep (`cleanup_old_appointments`) never
changes an active row regardless of age, and an illegal `delete`/`cancel`
attempt is a failing no-op (reports `false` and returns the store
verbatim). -/
theorem status_transitions_legal (op : WriteOp) (today : Nat) (s : Store)
    (hwf : WF s) :
    List.Forall₂ (rowEvolution op) s.appointments
      ((op.apply today s).appointments.take s.appointments.length) ∧
    (∀ aid, (deleteAppointment s aid).1 = false →
      (deleteAppointment s aid).2 = s) ∧
    (∀ aid tg, (cancelAppointmentByClient s aid tg).1 = false →
      (cancelAppointmentByClient s aid tg).2 = s) := by
  have hdel : ∀ aid, (deleteAppointment s aid).1 = false →
      (deleteAppointment s aid).2 = s := by
    intro aid hfalse
    unfold deleteAppointment at hfalse ⊢
    simp only [decide_eq_false_iff_not, Nat.not_lt, Nat.le_zero] at hfalse
    have hall : ∀ a ∈ s.appointments,
        (a.id == aid && a.status == "active") = false := by
      intro a ha
      by_contra hne
      rw [Bool.not_eq_false] at hne
      exact List.countP_eq_zero.mp hfalse a ha hne
    show { s with appointments := s.appointments.map (fun a =>
      if a.id == aid && a.status == "active" then
        { a with status := "deleted" } else a) } = s
    rw [map_if_eq_self hall]
  have hcan : ∀ aid tg, (cancelAppointmentByClient s aid tg).1 = false →
      (cancelAppointmentByClient s aid tg).2 = s := by
    intro aid tg hfalse
    unfold cancelAppointmentByClient at hfalse ⊢
    by_cases hf : (s.appointments.find? (fun a =>
        a.id == aid && a.telegram_user_id == some tg &&
          a.status == "active")).isSome = true
    · simp [hf] at hfalse
    · rw [Bool.not_eq_true] at hf
      simp [hf]
  refine ⟨?_, hdel, hcan⟩
  cases op with
  | book tg name d t sv ph =>
    unfold WriteOp.apply bookAppointment bookAppointmentF checkTimeConflictF
    by_cases hc : (checkTimeConflict s t d none).isSome
    · simp only [if_false, Bool.false_eq_true, hc, if_true]
      exact forall₂_take_refl _ s.appointments
    · rw [Bool.not_eq_true] at hc
      simp only [if_false, Bool.false_eq_true, hc]
      rw [bookInsert_appointments, List.take_left]
      exact forall₂_refl_of (fun a _ => rowEvolution_refl _ a)
  | add name d t sv tg ph =>
    by_cases hc : (checkTimeConflict s t d none).isSome
    · unfold WriteOp.apply addAppointment
      simp only [hc, if_true]
      exact forall₂_take_refl _ s.appointments
    · rw [Bool.not_eq_true] at hc
      rw [WriteOp.apply, addAppointment_appointments_free _ _ _ _ _ _ _ _ hc,
        List.take_left]
      exact forall₂_refl_of (fun a _ => rowEvolution_refl _ a)
  | reschedule aid d t tg =>
    unfold WriteOp.apply rescheduleAppointment rescheduleAppointmentF
      checkTimeConflictF
    by_cases hc : (checkTimeConflict s t d (some aid)).isSome
    · simp only [if_false, Bool.false_eq_true, hc, if_true]
      exact forall₂_take_refl _ s.appointments
    · rw [Bool.not_eq_true] at hc
      simp only [if_false, Bool.false_eq_true, hc]
      unfold rescheduleUpdate
      rw [take_len_map]
      refine forall₂_map_self ?_
      intro a _
      by_cases hg : reschedulePred aid tg a = true
      · have hst : a.status = "active" := by
          simp only [reschedulePred, Bool.and_eq_true, beq_iff_eq] at hg
          exact hg.1.2
        rw [if_pos hg]
        exact ⟨rfl, Or.inl rfl,
          fun harch => absurd (hst.symm.trans harch) (by decide),
          fun hcl => by simp [WriteOp.isCleanup] at hcl⟩
      · rw [if_neg hg]
        exact rowEvolution_refl _ a
  | cancel aid tg =>
    unfold WriteOp.apply cancelAppointmentByClient
    by_cases hf : (s.appointments.find? (fun a =>
        a.id == aid && a.telegram_user_id == some tg &&
          a.status == "active")).isSome = true
    · obtain ⟨b, hbmem, hbp⟩ := List.find?_isSome.mp hf
      simp only [Bool.and_eq_true, beq_iff_eq] at hbp
      simp only [hf, if_true]
      rw [take_len_map]
      refine forall₂_map_self ?_
      intro a ha
      by_cases hid : (a.id == aid) = true
      · have haeq : a = b := id_unique_of_pairwise hwf.1 a ha b hbmem
          ((beq_iff_eq.mp hid).trans hbp.1.1.symm)
        have hst : a.status = "active" := haeq ▸ hbp.2
        rw [if_pos hid]
        exact ⟨rfl, Or.inr (Or.inl ⟨hst, rfl⟩),
          fun harch => absurd (hst.symm.trans harch) (by decide),
          fun hcl => by simp [WriteOp.isCleanup] at hcl⟩
      · rw [if_neg hid]
        exact rowEvolution_refl _ a
    · rw [Bool.not_eq_true] at hf
      simp only [hf, Bool.false_eq_true, if_false]
      exact forall₂_take_refl _ s.appointments
  | delete aid =>
    have happ : ((WriteOp.delete aid).apply today s).appointments =
        s.appointments.map (fun a =>
          if a.id == aid && a.status == "active" then
            { a with status := "deleted" } else a) := rfl
    rw [happ, take_len_map]
    refine forall₂_map_self ?_
    intro a _
    by_cases hg : (a.id == aid && a.status == "active") = true
    · have hst : a.status = "active" := by
        simp only [Bool.and_eq_true, beq_iff_eq] at hg
        exact hg.2
      rw [if_pos hg]
      exact ⟨rfl, Or.inr (Or.inr (Or.inl ⟨hst, rfl⟩)),
        fun harch => absurd (hst.symm.trans harch) (by decide),
        fun hcl => by simp [WriteOp.isCleanup] at hcl⟩
    · rw [if_neg hg]
      exact rowEvolution_refl _ a
  | updTime aid t =>
    have happ : ((WriteOp.updTime aid t).apply today s).appointments =
        s.appointments.map (fun a =>
          if a.id == aid && a.status == "active" then
            { a with time := t } else a) := rfl
    rw [happ, take_len_map]
    refine forall₂_map_self ?_
    intro a _
    by_cases hg : (a.id == aid && a.status == "active") = true
    · have hst : a.status = "active" := by
        simp only [Bool.and_eq_true, beq_iff_eq] at hg
        exact hg.2
      rw [if_pos hg]
      exact ⟨rfl, Or.inl rfl,
        fun harch => absurd (hst.symm.trans harch) (by decide),
        fun hcl => by simp [WriteOp.isCleanup] at hcl⟩
    · rw [if_neg hg]
      exact rowEvolution_refl _ a
  | updClient aid n =>
    have happ : ((WriteOp.updClient aid n).apply today s).appointments =
        s.appointments.map (fun a =>
          if a.id == aid && a.status == "active" then
            { a with client_name := n } else a) := rfl
    rw [happ, take_len_map]
    refine forall₂_map_self ?_
    intro a _
    by_cases hg : (a.id == aid && a.status == "active") = true
    · have hst : a.status = "active" := by
        simp only [Bool.and_eq_true, beq_iff_eq] at hg
        exact hg.2
      rw [if_pos hg]
      exact ⟨rfl, Or.inl rfl,
        fun harch => absurd (hst.symm.trans harch) (by decide),
        fun hcl => by simp [WriteOp.isCleanup] at hcl⟩
    · rw [if_neg hg]
      exact rowEvolution_refl _ a
  | updService aid v =>
    have happ : ((WriteOp.updService aid v).apply today s).appointments =
        s.appointments.map (fun a =>
          if a.id == aid && a.status == "active" then
            { a with service := v } else a) := rfl
    rw [happ, take_len_map]
    refine forall₂_map_self ?_
    intro a _
    by_cases hg : (a.id == aid && a.status == "active") = true
    · have hst : a.status = "active" := by
        simp only [Bool.and_eq_true, beq_iff_eq] at hg
        exact hg.2
      rw [if_pos hg]
      exact ⟨rfl, Or.inl rfl,
        fun harch => absurd (hst.symm.trans harch) (by decide),
        fun hcl => by simp [WriteOp.isCleanup] at hcl⟩
    · rw [if_neg hg]
      exact rowEvolution_refl _ a
  | cleanup daysOld =>
    have happ : ((WriteOp.cleanup daysOld).apply today s).appointments =
        s.appointments.map (fun a =>
          if cleanupPred (today - daysOld) a then
            { a with status := "archived" } else a) := rfl
    rw [happ, take_len_map]
    refine forall₂_map_self ?_
    intro a _
    by_cases hg : cleanupPred (today - daysOld) a = true
    · have hdec : a.status = "cancelled_by_client" ∨ a.status = "deleted" := by
        simp only [cleanupPred, Bool.and_eq_true, Bool.or_eq_true,
          beq_iff_eq, decide_eq_true_eq] at hg
        exact hg.2
      rw [if_pos hg]
      refine ⟨rfl, Or.inr (Or.inr (Or.inr ⟨hdec, rfl⟩)), ?_, ?_⟩
      · intro harch
        rcases hdec with h | h <;>
          exact absurd (h.symm.trans harch) (by decide)
      · intro _ hact
        rcases hdec with h | h <;>
          exact absurd (h.symm.trans hact) (by decide)
    · rw [if_neg hg]
      exact rowEvolution_refl _ a

theorem status_transitions_legal_witness :
    List.Forall₂ (rowEvolution (WriteOp.delete 1)) sOcc.appointments
      (((WriteOp.delete 1).apply 0 sOcc).appointments.take
        sOcc.appointments.length) :=
  (status_transitions_legal (WriteOp.delete 1) 0 sOcc
    ⟨by simp [sOcc], by simp [sOcc, apptAnna]⟩).1
